import Mathlib

/-!
Shallow embedding of `src/deploy/deploy.go` (package `deploy` of dosxvpn).

External collaborators (the DigitalOcean client, the SSH client, the config
renderers, the filesystem, the public-IP HTTP probe, the OSX network mutator)
are modelled as explicit oracle parameters: each oracle field gives the result
the external call would return, indexed by call number or by argument where
the code distinguishes calls.  The Go control flow of `Run`, `New`,
`waitForPort`, `saveConfig`, `randomString` and the convergence loop is
translated match-for-match; observable effects (status assignments, files
written, probe invocations) are recorded in the result record.
-/

namespace Deploy

/-- Result of the Go pair `(string, error)`: `.ok s` for `(s, nil)`,
`.error e` for `("", err)` (every error path of `getPublicIp` and
`GetFileFromContainer` returns the empty string alongside the error). -/
abbrev Res := Except String String

/-- Test `err == nil` on a `(string, error)` result. -/
def isOkE : Res → Bool
  | .ok _ => true
  | .error _ => false

/-- The string component of a `(string, error)` result: the Go error paths
of `getPublicIp` all return `""` together with the error. -/
def valE : Res → String
  | .ok s => s
  | .error _ => ""

/-- Outcome of one call of `waitForPort`. -/
inductive PortResult where
  | ok : PortResult
  | dialErr : String → PortResult
  | timedOut : Int → PortResult
deriving DecidableEq, Repr

/--
Loop body of `waitForPort` (deploy.go lines 247-260):

    for attempt := uint(0); attempt < 15; attempt++ {
        conn, err := net.Dial("tcp", fmt.Sprintf("%s:%d", host, port))
        if err != nil {
            time.Sleep(5 * time.Second)
            continue
        } else if err != nil {
            return err
        }
        conn.Close()
        return nil
    }
    return fmt.Errorf("timed out waiting for port %d to open", port)

`dial n` is the error result of the n-th `net.Dial` call (`none` = success).
`fuel` counts the remaining iterations (initially 15); the second component of
the result is the total number of `net.Dial` calls performed.  The dead Go
branch `else if err != nil` is kept as the second test of `(dial attempt)`.
-/
def waitForPortLoop (dial : Nat → Option String) (port : Int) :
    Nat → Nat → PortResult × Nat
  | 0, attempt => (.timedOut port, attempt)
  | fuel + 1, attempt =>
    let err := dial attempt
    if err.isSome then
      waitForPortLoop dial port fuel (attempt + 1)
    else if err.isSome then
      (.dialErr (err.getD ""), attempt + 1)
    else
      (.ok, attempt + 1)

/-- Model of `waitForPort(host, port)` with the TCP dial backend abstracted;
returns
the result together with the number of connect attempts performed.  The bound
15 is the literal constant of the source. -/
def waitForPort (dial : Nat → Option String) (port : Int) : PortResult × Nat :=
  waitForPortLoop dial port 15 0

/-- Model of `waitForSSH(ip)`, which is `waitForPort(ip, 22)`. -/
def waitForSSH (dial : Nat → Option String) : PortResult × Nat :=
  waitForPort dial 22

/-- Mirrors the `Deployment` struct of deploy.go (exported and internal
fields; the client handles `doClient`/`sshClient` live in the environment).
Go zero values are the defaults. -/
structure Deployment where
  Region : String := ""
  AutoConfigure : Bool := false
  Name : String := ""
  Token : String := ""
  userData : String := ""
  dropletIP : String := ""
  dropletID : Int := 0
  VpnPassword : String := ""
  Status : String := ""
  VPNIPAddress : String := ""
  InitialPublicIP : String := ""
  FinalPublicIP : String := ""
deriving DecidableEq, Repr

def DropletBaseName : String := "dosxvpn"

/--
Source:

    func randomString(n int) string {
        rand.Seed(time.Now().UTC().UnixNano())
        return strconv.Itoa(rand.Int())[:n]
    }

`randInt` is the non-negative value `rand.Int()` yields from the global
generator freshly seeded with the current nanosecond timestamp; the function
keeps the first `n` decimal digits.  (Go's `[:n]` would panic if the decimal
had fewer than `n` digits; `String.take` truncates instead — `rand.Int()`
draws from 63 bits, so fewer than 3 digits cannot occur for the sizes used.)
-/
def randomString (n : Nat) (randInt : Nat) : String :=
  (toString randInt).take n

/--
Model of `New(token, region, autoConfigure)` of deploy.go.  `randInt` is the random
draw consumed by `randomString(3)`; `sshNew` is the result of
`sshclient.New()` (modelled by its `KeyPair.AuthorizedKey` on success);
`genCloudConfig` is `services.GenerateCloudConfig` applied to that key.
Either failure propagates; otherwise the deployment starts in status
`"pending auth"`.
-/
def New (token region : String) (autoConfigure : Bool) (randInt : Nat)
    (sshNew : Except String String)
    (genCloudConfig : String → Except String String) :
    Except String Deployment := do
  let deploy : Deployment := {
    Name := DropletBaseName ++ "-" ++ randomString 3 randInt ++ "-" ++ region
    Token := token
    Region := region
    AutoConfigure := autoConfigure
    Status := "pending auth" }
  let authorizedKey ← sshNew
  let userData ← genCloudConfig authorizedKey
  return { deploy with userData := userData }

/-- The deployment `New "token" "nyc1" true` returns when the fresh random
draw is `r` and the ssh key / cloud-config collaborators return `"key"` and
`"cfg"`. -/
def sampleDep (r : Nat) : Deployment :=
  { Name := DropletBaseName ++ "-" ++ randomString 3 r ++ "-" ++ "nyc1"
    Token := "token"
    Region := "nyc1"
    AutoConfigure := true
    Status := "pending auth"
    userData := "cfg" }

/-- Model of `filepath.Join` for the two-component joins the code performs. -/
def pathJoin (a b : String) : String := a ++ "/" ++ b

/-- Model of `FilepathDosxvpnConfigDir = filepath.Join(userHomeDir(), ".dosxvpn")`;
the home directory is an environment input. -/
def FilepathDosxvpnConfigDir (homeDir : String) : String :=
  pathJoin homeDir ".dosxvpn"

/-- Rendering of `fmt.Sprintf("%s.apple.mobileconfig", name)`. -/
def FilenameAppleConfig (name : String) : String := name ++ ".apple.mobileconfig"

/-- Rendering of `fmt.Sprintf("%s.android.sswan", name)`. -/
def FilenameAndroidConfig (name : String) : String := name ++ ".android.sswan"

/-- Rendering of `fmt.Sprintf("%s.client.cert.p12", name)`. -/
def FilenamePrivateKey (name : String) : String := name ++ ".client.cert.p12"

/-- Rendering of `fmt.Sprintf("%s.ca.cert.pem", name)`. -/
def FilenameCACert (name : String) : String := name ++ ".ca.cert.pem"

/-- Rendering of `fmt.Sprintf("%s.server.cert.pem", name)`. -/
def FilenameServerCert (name : String) : String := name ++ ".server.cert.pem"

/-- Remote path of the private-key passphrase file fetched by `Run`. -/
def RemotePathPassword : String := "/etc/ipsec.d/client.cert.p12.password"

/-- Remote path of the client private-key container. -/
def RemotePathPrivateKey : String := "/etc/ipsec.d/client.cert.p12"

/-- Remote path of the CA certificate. -/
def RemotePathCACert : String := "/etc/ipsec.d/cacerts/ca.cert.pem"

/-- Remote path of the server certificate. -/
def RemotePathServerCert : String := "/etc/ipsec.d/certs/server.cert.pem"

/--
Source:

    func saveConfig(configFileString, saveFile string) (string, error) {
        os.MkdirAll(FilepathDosxvpnConfigDir, os.ModePerm)
        err := ioutil.WriteFile(saveFile, []byte(configFileString), 0644)
        if err != nil { return "", err }
        return saveFile, nil
    }

`writeFile file content` is the `ioutil.WriteFile` oracle (`MkdirAll`'s
result is ignored by the source). -/
def saveConfig (writeFile : String → String → Except String Unit)
    (configFileString saveFile : String) : Except String String :=
  match writeFile saveFile configFileString with
  | .ok _ => .ok saveFile
  | .error e => .error e

/-- Disk effect of one (result-discarded) `saveConfig` call: the target file
exists afterwards exactly when the write succeeded. -/
def recordSave (written : List String) (r : Except String String) :
    List String :=
  match r with
  | .ok f => written ++ [f]
  | .error _ => written

/--
Convergence-detection loop of `Run` (deploy.go lines 183-193):

    for j := 0; j < 10; j++ {
        time.Sleep(time.Second * 5)
        newIP, err := getPublicIp()
        if err == nil && newIP != "" && newIP != initialPublicIP {
            newIP, _ := getPublicIp()
            d.FinalPublicIP = newIP
            break
        }
    }

`probe c` is the result of the c-th `getPublicIp()` call of the whole run
(the baseline lookup at the top of `Run` is call 0, so the loop starts at
call index 1).  Returns `(next call index, iterations executed, the value
assigned to FinalPublicIP if the break was taken)`.  Note the successful
iteration calls the probe a second time and assigns THAT result. -/
def convergenceLoop (probe : Nat → Res) (initialPublicIP : String) :
    Nat → Nat → Nat × Nat × Option String
  | 0, c => (c, 0, none)
  | fuel + 1, c =>
    let r := probe c
    if isOkE r && (valE r != "") && (valE r != initialPublicIP) then
      (c + 2, 1, some (valE (probe (c + 1))))
    else
      let rest := convergenceLoop probe initialPublicIP fuel (c + 1)
      (rest.1, rest.2.1 + 1, rest.2.2)

/-- Oracles for every external call `Run` performs, in source order:
`getPublicIp` (indexed by call number), the DigitalOcean client, the SSH
dial backend of `waitForSSH`, the blocking remote command, container file
fetches (indexed by remote path), the two config renderers, the filesystem
write, and `vpn.OSXAddVPN`. -/
structure Env where
  publicIp : Nat → Res
  createDroplet : Except String Int
  waitForDropletIP : Except String String
  createFirewall : Except String Unit
  sshDial : Nat → Option String
  sshRun : Res
  fetchFile : String → Res
  genApple : String → String → String → String → String → String → Res
  genAndroid : String → String → String → String → Res
  writeFile : String → String → Except String Unit
  osxAddVPN : Except String Unit
  homeDir : String

/-- How one call of `Run` ends: `fatal` models `log.Fatal` (process exit),
`failed` a non-nil error return, `success` a nil return. -/
inductive RunOutcome where
  | fatal : String → RunOutcome
  | failed : String → RunOutcome
  | success : RunOutcome
deriving DecidableEq, Repr

/-- Observable result of one call of `Run`: the final deployment value, how
the call ended, the `Status` values assigned during the call (in order), the
files successfully written to the config directory (in order), the remote
paths fetched from the container (in order), and the invocation counts of
`getPublicIp`, `vpn.OSXAddVPN` and the convergence-loop iterations. -/
structure RunResult where
  d : Deployment
  outcome : RunOutcome
  statusTrace : List String
  written : List String
  fetched : List String
  ipCalls : Nat
  osxCalls : Nat
  probeIters : Nat
deriving DecidableEq, Repr

/--
Model of `(*Deployment).Run()` of deploy.go, translated branch-for-branch.  Errors
from `CreateDroplet`, `WaitForDropletIP`, `CreateFirewall`, `waitForSSH` and
the blocking remote command hit `log.Fatal` (outcome `.fatal`); errors from
the container fetches and the config renderers are returned (outcome
`.failed`); the results of `saveConfig` and `vpn.OSXAddVPN` are discarded by
the source, and the initial `getPublicIp` error is ignored via `_`.  The
`d.Status = "done"` assignment sits INSIDE the `if d.AutoConfigure` block,
exactly as in the source.
-/
def Run (env : Env) (d0 : Deployment) : RunResult :=
  let cfgDir := FilepathDosxvpnConfigDir env.homeDir
  let initialPublicIP := valE (env.publicIp 0)
  let d := { d0 with InitialPublicIP := initialPublicIP }
  match env.createDroplet with
  | .error e => ⟨d, .fatal e, [], [], [], 1, 0, 0⟩
  | .ok dropletID =>
    let d := { d with dropletID := dropletID }
    match env.waitForDropletIP with
    | .error e => ⟨d, .fatal e, [], [], [], 1, 0, 0⟩
    | .ok dropletIP =>
      let d := { d with dropletIP := dropletIP, VPNIPAddress := dropletIP }
      match env.createFirewall with
      | .error e => ⟨d, .fatal e, [], [], [], 1, 0, 0⟩
      | .ok _ =>
        let d := { d with Status := "waiting for ssh" }
        let trace := ["waiting for ssh"]
        match (waitForSSH env.sshDial).1 with
        | .timedOut p =>
          ⟨d, .fatal ("timed out waiting for port " ++ toString p ++ " to open"),
            trace, [], [], 1, 0, 0⟩
        | .dialErr e => ⟨d, .fatal e, trace, [], [], 1, 0, 0⟩
        | .ok =>
          match env.sshRun with
          | .error e => ⟨d, .fatal e, trace, [], [], 1, 0, 0⟩
          | .ok _ =>
            let fetched := [RemotePathPassword]
            match env.fetchFile RemotePathPassword with
            | .error e => ⟨d, .failed e, trace, [], fetched, 1, 0, 0⟩
            | .ok privateKeyPasswordString =>
              let d := { d with VpnPassword := privateKeyPasswordString }
              let fetched := fetched ++ [RemotePathPrivateKey]
              match env.fetchFile RemotePathPrivateKey with
              | .error e => ⟨d, .failed e, trace, [], fetched, 1, 0, 0⟩
              | .ok privateKeyString =>
                let written := recordSave [] (saveConfig env.writeFile
                  privateKeyString (pathJoin cfgDir (FilenamePrivateKey d.Name)))
                let fetched := fetched ++ [RemotePathCACert]
                match env.fetchFile RemotePathCACert with
                | .error e => ⟨d, .failed e, trace, written, fetched, 1, 0, 0⟩
                | .ok caCertString =>
                  let written := recordSave written (saveConfig env.writeFile
                    caCertString (pathJoin cfgDir (FilenameCACert d.Name)))
                  let fetched := fetched ++ [RemotePathServerCert]
                  match env.fetchFile RemotePathServerCert with
                  | .error e => ⟨d, .failed e, trace, written, fetched, 1, 0, 0⟩
                  | .ok serverCertString =>
                    let written := recordSave written (saveConfig env.writeFile
                      serverCertString (pathJoin cfgDir (FilenameServerCert d.Name)))
                    match env.genApple d.dropletIP d.Name privateKeyPasswordString
                        privateKeyString caCertString serverCertString with
                    | .error e => ⟨d, .failed e, trace, written, fetched, 1, 0, 0⟩
                    | .ok appleConfigString =>
                      let written := recordSave written (saveConfig env.writeFile
                        appleConfigString (pathJoin cfgDir (FilenameAppleConfig d.Name)))
                      match env.genAndroid d.dropletIP d.Name privateKeyString
                          caCertString with
                      | .error e => ⟨d, .failed e, trace, written, fetched, 1, 0, 0⟩
                      | .ok androidConfigString =>
                        let written := recordSave written (saveConfig env.writeFile
                          androidConfigString (pathJoin cfgDir (FilenameAndroidConfig d.Name)))
                        if d.AutoConfigure then
                          let d := { d with Status := "adding vpn to osx" }
                          let trace := trace ++ ["adding vpn to osx"]
                          let d := { d with Status := "waiting for ip address change" }
                          let trace := trace ++ ["waiting for ip address change"]
                          let conv := convergenceLoop env.publicIp initialPublicIP 10 1
                          let d := match conv.2.2 with
                            | some ip => { d with FinalPublicIP := ip }
                            | none => d
                          let d := { d with Status := "done" }
                          let trace := trace ++ ["done"]
                          ⟨d, .success, trace, written, fetched, conv.1, 1, conv.2.1⟩
                        else
                          ⟨d, .success, trace, written, fetched, 1, 0, 0⟩

/-- An environment in which every external call succeeds. -/
def okEnv : Env :=
  { publicIp := fun _ => .ok "1.2.3.4"
    createDroplet := .ok 42
    waitForDropletIP := .ok "203.0.113.7"
    createFirewall := .ok ()
    sshDial := fun _ => none
    sshRun := .ok ""
    fetchFile := fun p => .ok ("content:" ++ p)
    genApple := fun _ _ _ _ _ _ => .ok "appleCfg"
    genAndroid := fun _ _ _ _ => .ok "androidCfg"
    writeFile := fun _ _ => .ok ()
    osxAddVPN := .ok ()
    homeDir := "/Users/u" }

/-- A deployment fresh from `New` with `autoConfigure = false`. -/
def depNoAuto : Deployment := { sampleDep 123 with AutoConfigure := false }

/-- A deployment fresh from `New` with `autoConfigure = true`. -/
def depAuto : Deployment := sampleDep 123

/-- Public-IP probe results for the convergence scenario of the spec: the
baseline lookup (call 0) sees `1.2.3.4` and the probe then yields
`1.2.3.4, 1.2.3.4, 5.6.7.8` on successive calls; the sequence has no
further elements. -/
def probeSeq : Nat → Res
  | 0 => .ok "1.2.3.4"
  | 1 => .ok "1.2.3.4"
  | 2 => .ok "1.2.3.4"
  | 3 => .ok "5.6.7.8"
  | _ => .error "probe sequence exhausted"

/-- Environment `okEnv` with the convergence probe sequence above. -/
def convEnv : Env := { okEnv with publicIp := probeSeq }

/-- Container fetch oracle that fails exactly on the CA certificate. -/
def fetchNoCACert (p : String) : Res :=
  if p == RemotePathCACert then .error "fetch of ca.cert.pem failed"
  else .ok ("content:" ++ p)

/-- Environment `okEnv` in which fetching the CA certificate (the second of the three
artifact files) fails. -/
def artifactFailEnv : Env := { okEnv with fetchFile := fetchNoCACert }

/-- Environment `okEnv` in which every local file write fails. -/
def writeFailEnv : Env :=
  { okEnv with writeFile := fun _ _ => .error "disk full" }

/-- Environment `okEnv` in which every `getPublicIp` call fails. -/
def ipFailEnv : Env :=
  { okEnv with publicIp := fun _ => .error "checkip unreachable" }

end Deploy

namespace Deploy

lemma waitForPortLoop_allFail (dial : Nat → Option String) (port : Int)
    (hdial : ∀ n, (dial n).isSome) :
    ∀ fuel attempt, waitForPortLoop dial port fuel attempt =
      (.timedOut port, attempt + fuel) := by
  intro fuel
  induction fuel with
  | zero => intro attempt; simp [waitForPortLoop]
  | succ f ih =>
    intro attempt
    simp [waitForPortLoop, hdial attempt, ih, Prod.ext_iff]
    omega

lemma waitForPortLoop_firstSuccess (dial : Nat → Option String) (port : Int) :
    ∀ fuel attempt k, k < fuel →
      (∀ i, i < k → (dial (attempt + i)).isSome) →
      dial (attempt + k) = none →
      waitForPortLoop dial port fuel attempt = (.ok, attempt + k + 1) := by
  intro fuel
  induction fuel with
  | zero => intro attempt k hk; omega
  | succ f ih =>
    intro attempt k hk hfail hsucc
    match k with
    | 0 =>
      simp only [Nat.add_zero] at hsucc
      simp [waitForPortLoop, hsucc]
    | k' + 1 =>
      have h0 : (dial (attempt + 0)).isSome := hfail 0 (by omega)
      simp only [Nat.add_zero] at h0
      simp only [waitForPortLoop, h0, if_pos]
      have := ih (attempt + 1) k' (by omega)
        (fun i hi => by
          have := hfail (i + 1) (by omega)
          simpa [Nat.add_assoc, Nat.add_comm 1 i] using this)
        (by
          have : attempt + 1 + k' = attempt + (k' + 1) := by omega
          rw [this]; exact hsucc)
      rw [this]
      congr 1
      omega

lemma waitForPortLoop_cases (dial : Nat → Option String) (port : Int) :
    ∀ fuel attempt,
      (waitForPortLoop dial port fuel attempt).1 = PortResult.ok ∨
      (waitForPortLoop dial port fuel attempt).1 = PortResult.timedOut port := by
  intro fuel
  induction fuel with
  | zero => intro attempt; right; simp [waitForPortLoop]
  | succ f ih =>
    intro attempt
    by_cases h : (dial attempt).isSome
    · simpa [waitForPortLoop, h] using ih (attempt + 1)
    · left; simp [waitForPortLoop, h]

lemma Run_InitialPublicIP (env : Env) (d0 : Deployment) :
    (Run env d0).d.InitialPublicIP = valE (env.publicIp 0) := by
  simp only [Run]
  repeat' split
  all_goals rfl

lemma New_name (token region : String) (ac : Bool) (r : Nat)
    (sshNew : Except String String) (gen : String → Except String String)
    (d : Deployment) (h : New token region ac r sshNew gen = .ok d) :
    d.Name = DropletBaseName ++ "-" ++ randomString 3 r ++ "-" ++ region := by
  cases sshNew with
  | error e => simp [New, Bind.bind, Except.bind] at h
  | ok key =>
    cases hg : gen key with
    | error e =>
      simp [New, Bind.bind, Except.bind, Functor.map, Except.map, hg] at h
    | ok ud =>
      simp only [New, Bind.bind, Except.bind, Functor.map, Except.map, hg,
        Pure.pure, Except.pure, Except.ok.injEq] at h
      subst h
      rfl

lemma name_ne_of_rand_ne (p q region : String) (hne : p ≠ q) :
    DropletBaseName ++ "-" ++ p ++ "-" ++ region ≠
      DropletBaseName ++ "-" ++ q ++ "-" ++ region := by
  intro h
  apply hne
  have hd := congrArg String.data h
  simp only [String.data_append, List.append_assoc] at hd
  have h1 := List.append_cancel_left hd
  have h2 := List.append_cancel_left h1
  have h3 := List.append_cancel_right h2
  cases p
  cases q
  exact congrArg String.mk h3

end Deploy

open Deploy

/-- C3: if the TCP connect backend fails on every attempt, `waitForPort`
returns the timed-out error after exactly the configured maximum number of
attempts (15), never looping indefinitely. -/
theorem C3_waitForPort_timeout (dial : Nat → Option String) (port : Int)
    (hdial : ∀ n, (dial n).isSome) :
    waitForPort dial port = (PortResult.timedOut port, 15) := by
  unfold waitForPort
  rw [waitForPortLoop_allFail dial port hdial 15 0]

/-- Witness for C3 at a concrete always-failing backend. -/
theorem C3_waitForPort_timeout_witness :
    waitForPort (fun _ => some "connection refused") 22 =
      (PortResult.timedOut 22, 15) :=
  C3_waitForPort_timeout (fun _ => some "connection refused") 22
    (fun _ => rfl)

/-- C4: if the connect backend fails on attempts 0..k-1 and succeeds for the
first time on attempt k (0-indexed, k < 15), `waitForPort` returns success
having performed exactly k+1 connect attempts — it stops immediately after
the first success and performs no further attempts. -/
theorem C4_waitForPort_firstSuccess (dial : Nat → Option String) (port : Int)
    (k : Nat) (hk : k < 15)
    (hfail : ∀ i, i < k → (dial i).isSome)
    (hsucc : dial k = none) :
    waitForPort dial port = (PortResult.ok, k + 1) := by
  unfold waitForPort
  have := waitForPortLoop_firstSuccess dial port 15 0 k hk
    (fun i hi => by simpa using hfail i hi)
    (by simpa using hsucc)
  simpa using this

/-- Witness for C4: backend fails twice then succeeds on attempt 2;
`waitForPort` returns success after exactly 3 attempts. -/
theorem C4_waitForPort_firstSuccess_witness :
    waitForPort (fun n => if n < 2 then some "refused" else none) 22 =
      (PortResult.ok, 3) :=
  C4_waitForPort_firstSuccess (fun n => if n < 2 then some "refused" else none)
    22 2 (by omega) (fun i hi => by interval_cases i <;> rfl) (by rfl)

/-- C10: for every behaviour of the connect backend, `waitForPort` returns
either success or the timed-out error; the `else if err != nil` arm that
would return the dial error directly is unreachable. -/
theorem C10_waitForPort_no_dialErr (dial : Nat → Option String) (port : Int) :
    (waitForPort dial port).1 = PortResult.ok ∨
    (waitForPort dial port).1 = PortResult.timedOut port :=
  waitForPortLoop_cases dial port 15 0

/-- C9 counterexample: two successive calls of `New` with identical token,
region and autoConfigure do NOT always return different Names.
`randomString` reseeds the global generator with the current nanosecond
timestamp on every call, so two calls that observe the same timestamp (or
whose fresh draws merely share their first three decimal digits) draw the
same `rand.Int()` value — here both draws are 123 — and produce the
identical name `"dosxvpn-123-nyc1"`. -/
theorem C9_counterexample : ¬ (∀ (r1 r2 : Nat) (d1 d2 : Deployment),
    New "token" "nyc1" true r1 (.ok "key") (fun _ => .ok "cfg") = .ok d1 →
    New "token" "nyc1" true r2 (.ok "key") (fun _ => .ok "cfg") = .ok d2 →
    d1.Name ≠ d2.Name) := by
  intro h
  exact h 123 123 _ _ rfl rfl rfl

/-- C9 (amended): two successful calls of `New` with identical token, region
and autoConfigure return different Name values whenever the two calls'
random draws differ in their first three decimal digits (the part
`randomString(3)` keeps); when the draws coincide — e.g. both calls seed
with the same nanosecond timestamp — the names coincide as well. -/
theorem C9_distinct_names (token region : String) (ac : Bool) (r1 r2 : Nat)
    (ssh1 ssh2 : Except String String)
    (gen1 gen2 : String → Except String String) (d1 d2 : Deployment)
    (h1 : New token region ac r1 ssh1 gen1 = .ok d1)
    (h2 : New token region ac r2 ssh2 gen2 = .ok d2)
    (hr : randomString 3 r1 ≠ randomString 3 r2) :
    d1.Name ≠ d2.Name := by
  rw [New_name token region ac r1 ssh1 gen1 d1 h1,
      New_name token region ac r2 ssh2 gen2 d2 h2]
  exact name_ne_of_rand_ne _ _ region hr

/-- Witness for C9 (amended) at draws 100 and 200. -/
theorem C9_distinct_names_witness :
    (sampleDep 100).Name ≠ (sampleDep 200).Name :=
  C9_distinct_names "token" "nyc1" true 100 200 (.ok "key") (.ok "key")
    (fun _ => .ok "cfg") (fun _ => .ok "cfg") _ _ rfl rfl (by decide)

/-- C1 fails on the code: over a fully successful run with
`autoConfigure = false` the observed Status values are
`pending auth, waiting for ssh` only — the terminal `done` (and the two
optional statuses) are skipped, because the `d.Status = "done"` assignment
sits inside the `if d.AutoConfigure` block.  The claim requires `done` to be
reached for every value of autoConfigure. -/
theorem C1_done_skipped_without_autoConfigure :
    (Run okEnv depNoAuto).outcome = RunOutcome.success ∧
    "pending auth" :: (Run okEnv depNoAuto).statusTrace =
      ["pending auth", "waiting for ssh"] ∧
    (Run okEnv depNoAuto).d.Status = "waiting for ssh" ∧
    ¬ "done" ∈ "pending auth" :: (Run okEnv depNoAuto).statusTrace := by
  refine ⟨rfl, rfl, rfl, ?_⟩
  decide

/-- C2 fails on the code: with baseline `1.2.3.4` and the probe yielding
`1.2.3.4, 1.2.3.4, 5.6.7.8` on successive calls, the loop does not stop
after the third probe call — the successful iteration calls `getPublicIp()`
a second time (the run performs 5 probe calls in total: 1 baseline + 4 loop
calls) and assigns THAT fourth-call result to `FinalPublicIP`, which is `""`
because the sequence has no fourth element, not `5.6.7.8`. -/
theorem C2_convergence_probes_fourth_time :
    (Run convEnv depAuto).outcome = RunOutcome.success ∧
    (Run convEnv depAuto).probeIters = 3 ∧
    (Run convEnv depAuto).ipCalls = 5 ∧
    (Run convEnv depAuto).d.FinalPublicIP = "" := by
  refine ⟨rfl, rfl, rfl, rfl⟩

/-- C5: when the fetch of the CA certificate (the second of the three
artifact files) fails while everything before it succeeded, `Run` returns
exactly that fetch error, exactly the private-key file (the first artifact)
has been written to the config directory, and the server certificate is
never fetched. -/
theorem C5_artifact_pipeline_aborts (env : Env) (d0 : Deployment)
    (i : Int) (ip out pw pk e : String)
    (hcd : env.createDroplet = .ok i)
    (hwip : env.waitForDropletIP = .ok ip)
    (hfw : env.createFirewall = .ok ())
    (hssh : (waitForSSH env.sshDial).1 = PortResult.ok)
    (hrun : env.sshRun = .ok out)
    (hpw : env.fetchFile RemotePathPassword = .ok pw)
    (hpk : env.fetchFile RemotePathPrivateKey = .ok pk)
    (hca : env.fetchFile RemotePathCACert = .error e)
    (hw : env.writeFile
      (pathJoin (FilepathDosxvpnConfigDir env.homeDir)
        (FilenamePrivateKey d0.Name)) pk = .ok ()) :
    (Run env d0).outcome = RunOutcome.failed e ∧
    (Run env d0).written =
      [pathJoin (FilepathDosxvpnConfigDir env.homeDir)
        (FilenamePrivateKey d0.Name)] ∧
    (Run env d0).fetched =
      [RemotePathPassword, RemotePathPrivateKey, RemotePathCACert] := by
  simp [Run, saveConfig, recordSave, hcd, hwip, hfw, hssh, hrun, hpw, hpk,
    hca, hw]

/-- Witness for C5 in the concrete environment where the CA-certificate
fetch fails. -/
theorem C5_artifact_pipeline_aborts_witness :
    (Run artifactFailEnv depNoAuto).outcome =
      RunOutcome.failed "fetch of ca.cert.pem failed" ∧
    (Run artifactFailEnv depNoAuto).written =
      [pathJoin (FilepathDosxvpnConfigDir artifactFailEnv.homeDir)
        (FilenamePrivateKey depNoAuto.Name)] ∧
    (Run artifactFailEnv depNoAuto).fetched =
      [RemotePathPassword, RemotePathPrivateKey, RemotePathCACert] :=
  C5_artifact_pipeline_aborts artifactFailEnv depNoAuto 42 "203.0.113.7" ""
    _ _ "fetch of ca.cert.pem failed" rfl rfl rfl rfl rfl rfl rfl rfl rfl

/-- C6 fails on the code: `Run` discards the result of every `saveConfig`
call, so when every local write fails (disk full) the run still visits all
four remote fetches, writes nothing, and returns success — the first write
failure is neither propagated nor does it abort the remaining artifacts. -/
theorem C6_write_failure_swallowed :
    (Run writeFailEnv depNoAuto).outcome = RunOutcome.success ∧
    (Run writeFailEnv depNoAuto).written = [] ∧
    (Run writeFailEnv depNoAuto).fetched =
      [RemotePathPassword, RemotePathPrivateKey, RemotePathCACert,
        RemotePathServerCert] := by
  refine ⟨rfl, rfl, rfl⟩

/-- C7: a run with `autoConfigure = false` never invokes `vpn.OSXAddVPN`
and never executes an iteration of the convergence-detection probe loop,
whatever the environment does. -/
theorem C7_no_local_apply_without_autoConfigure (env : Env) (d0 : Deployment)
    (h : d0.AutoConfigure = false) :
    (Run env d0).osxCalls = 0 ∧ (Run env d0).probeIters = 0 := by
  simp only [Run]
  repeat' split
  all_goals simp_all

/-- Witness for C7 in the all-success environment. -/
theorem C7_no_local_apply_without_autoConfigure_witness :
    (Run okEnv depNoAuto).osxCalls = 0 ∧
    (Run okEnv depNoAuto).probeIters = 0 :=
  C7_no_local_apply_without_autoConfigure okEnv depNoAuto rfl

/-- C8: when the initial `getPublicIp()` lookup fails, the run is not
aborted — `InitialPublicIP` is left empty and execution proceeds to droplet
provisioning (a provisioning error is what surfaces, via `log.Fatal`, if
`CreateDroplet` fails). -/
theorem C8_initial_probe_failure_nonfatal (env : Env) (d0 : Deployment)
    (e : String) (hip : env.publicIp 0 = .error e) :
    (Run env d0).d.InitialPublicIP = "" ∧
    (∀ e2, env.createDroplet = Except.error e2 →
      (Run env d0).outcome = RunOutcome.fatal e2) := by
  constructor
  · rw [Run_InitialPublicIP, hip]
    rfl
  · intro e2 h2
    simp [Run, h2]

/-- Witness for C8 in the environment where every public-IP lookup fails. -/
theorem C8_initial_probe_failure_nonfatal_witness :
    (Run ipFailEnv depNoAuto).d.InitialPublicIP = "" ∧
    (∀ e2, ipFailEnv.createDroplet = Except.error e2 →
      (Run ipFailEnv depNoAuto).outcome = RunOutcome.fatal e2) :=
  C8_initial_probe_failure_nonfatal ipFailEnv depNoAuto "checkip unreachable"
    rfl
